import Mathlib

/-!
Shallow embedding of the `fd3d` module: node/edge adapter traits, the
`Node`/`Edge` record types, the `Graph` aggregate (maps modelled as
association lists with overwrite-on-insert), and the graph-builder and
zoom-target traits.  Rust's `serde_json::Value` is modelled by `JValue`;
per-type serializers (`serde::Serialize` impls) are the `Ser` class,
`fmt::Display` is `Disp`, `fmt::Debug` is `Dbg`.  Fallible serialization
returns `Except SerErr JValue`; the mutable `&mut self` methods are
embedded as state-passing functions `Graph → Graph × Except SerErr _`.
-/

/-- The single error kind of the module, modelling `serde_json::Error`. -/
structure SerErr where
  msg : String
deriving DecidableEq, Repr

/-- A JSON-like tree, modelling `serde_json::Value` as far as the module needs. -/
inductive JValue where
  | str : String → JValue
  | num : Int → JValue
  | arr : List JValue → JValue
  | obj : List (String × JValue) → JValue

/-- Models `std::fmt::Display` (`format("{}", x)`). -/
class Disp (α : Type) where
  disp : α → String

/-- Models `std::fmt::Debug` (`format("{:?}", x)`). -/
class Dbg (α : Type) where
  dbg : α → String

/-- Models `serde::Serialize`: a fallible conversion to a `JValue`. -/
class Ser (α : Type) where
  ser : α → Except SerErr JValue

/-- serde serializes a tuple as a two-element array, failing if a component fails. -/
instance [Ser α] [Ser β] : Ser (α × β) where
  ser p := do
    let a ← Ser.ser p.1
    let b ← Ser.ser p.2
    pure (JValue.arr [a, b])

/-- The `Node<NV, PK, T>` struct. -/
structure Node (NV PK T : Type) where
  variant : NV
  variant_pk : PK
  id : String
  name : String
  props : T

/-- `Node::to_node_json`: `serde_json::to_value(&self)`, serializing the fields
in declaration order (the `id` and `name` strings cannot fail). -/
def Node.to_node_json [Ser NV] [Ser PK] [Ser T] (n : Node NV PK T) :
    Except SerErr JValue := do
  let v ← Ser.ser n.variant
  let pk ← Ser.ser n.variant_pk
  let p ← Ser.ser n.props
  pure (JValue.obj [("variant", v), ("variant_pk", pk), ("id", JValue.str n.id),
    ("name", JValue.str n.name), ("props", p)])

/-- The default `ToNode::node_id` body: `format("{}|{:?}", variant, variant_pk)`. -/
def node_id_default [Disp NV] [Dbg PK] (variant : NV) (variant_pk : PK) : String :=
  Disp.disp variant ++ "|" ++ Dbg.dbg variant_pk

/-- A dictionary for the `ToNode` trait: each `&self` method of an implementer
becomes a field (the methods are pure, so a trait object is a tuple of the
method results).  `node_id` defaults to the trait's default implementation but
may be overridden, exactly as in the trait. -/
structure ToNodeInst (NV PK T : Type) [Disp NV] [Dbg PK] where
  node_variant : NV
  node_pk : PK
  node_name : String
  node_props : T
  node_id : String := node_id_default node_variant node_pk
  node_image_url : Option String := none
  edge_source_comment : Option String := none
  edge_target_comment : Option String := none

/-- `ToNode::to_node`: assembles the `Node` record from the trait methods. -/
def ToNodeInst.to_node {NV PK T : Type} [Disp NV] [Dbg PK]
    (s : ToNodeInst NV PK T) : Node NV PK T :=
  { variant := s.node_variant, variant_pk := s.node_pk, id := s.node_id,
    name := s.node_name, props := s.node_props }

/-- The `Edge<EV, PK, T>` struct. -/
structure Edge (EV PK T : Type) where
  variant : EV
  variant_pk : PK
  id : String
  source : String
  target : String
  props : T

/-- `Edge::to_edge_json`: `serde_json::to_value(&self)` on the edge struct. -/
def Edge.to_edge_json [Ser EV] [Ser PK] [Ser T] (e : Edge EV PK T) :
    Except SerErr JValue := do
  let v ← Ser.ser e.variant
  let pk ← Ser.ser e.variant_pk
  let p ← Ser.ser e.props
  pure (JValue.obj [("variant", v), ("variant_pk", pk), ("id", JValue.str e.id),
    ("source", JValue.str e.source), ("target", JValue.str e.target), ("props", p)])

/-- Lookup in an association-list map (the model of `HashMap<String, _>`). -/
def getAssoc {α : Type} (k : String) : List (String × α) → Option α
  | [] => none
  | (k', v) :: rest => if k' = k then some v else getAssoc k rest

/-- Insert/overwrite in an association-list map: `HashMap::insert`. -/
def updAssoc {α : Type} (k : String) (v : α) : List (String × α) → List (String × α)
  | [] => [(k, v)]
  | (k', v') :: rest => if k' = k then (k, v) :: rest else (k', v') :: updAssoc k v rest

/-- The `Graph` aggregate: nodes and edges, collected first by variant string
and then by id (both `HashMap` levels are modelled as association lists). -/
structure Graph where
  nodes : List (String × List (String × JValue))
  edges : List (String × List (String × JValue))

/-- `Graph::new`: a new empty graph. -/
def Graph.new : Graph :=
  { nodes := [], edges := [] }

/-- Two-level lookup `m[c][k]`, as used to read a node/edge slot of a graph. -/
def lookup2 (m : List (String × List (String × JValue))) (c k : String) :
    Option JValue :=
  (getAssoc c m).bind (getAssoc k)

/-- `Graph::add_node`: serialize the node, then
`self.nodes.entry(variant.to_string()).or_insert(HashMap::new()).insert(id, json)`.
On serialization failure the graph is returned unchanged with the error. -/
def Graph.add_node {NV PK T : Type} [Ser NV] [Disp NV] [Ser PK] [Ser T]
    (g : Graph) (node : Node NV PK T) : Graph × Except SerErr Unit :=
  match node.to_node_json with
  | .error e => (g, .error e)
  | .ok json =>
    let collection := Disp.disp node.variant
    let bucket := (getAssoc collection g.nodes).getD []
    ({ g with nodes := updAssoc collection (updAssoc node.id json bucket) g.nodes },
      .ok ())

/-- `Graph::add_node_from`: derive the node from the adapter, insert it, and
return the typed node on success. -/
def Graph.add_node_from {NV PK T : Type} [Ser NV] [Disp NV] [Ser PK] [Dbg PK] [Ser T]
    (g : Graph) (n : ToNodeInst NV PK T) : Graph × Except SerErr (Node NV PK T) :=
  let node := n.to_node
  match g.add_node node with
  | (g', .error e) => (g', .error e)
  | (g', .ok _) => (g', .ok node)

/-- `Graph::add_edge` (private in the source): same pattern as `add_node`,
on the `edges` mapping. -/
def Graph.add_edge {EV PK T : Type} [Ser EV] [Disp EV] [Ser PK] [Ser T]
    (g : Graph) (edge : Edge EV PK T) : Graph × Except SerErr Unit :=
  match edge.to_edge_json with
  | .error e => (g, .error e)
  | .ok json =>
    let collection := Disp.disp edge.variant
    let bucket := (getAssoc collection g.edges).getD []
    ({ g with edges := updAssoc collection (updAssoc edge.id json bucket) g.edges },
      .ok ())

/-- The edge synthesized inside `Graph::source_edge_target`: `variant_pk` is the
pair of the endpoint primary keys, `id` is
`format("{:?}|{}|{:?}", source_pk, edge_variant, target_pk)`, and
`source`/`target` are the endpoints' `node_id()`s. -/
def mkSETEdge {NVS PKS TS EV ET NVT PKT TT : Type}
    [Disp NVS] [Dbg PKS] [Disp EV] [Disp NVT] [Dbg PKT]
    (n_source : ToNodeInst NVS PKS TS) (n_target : ToNodeInst NVT PKT TT)
    (edge_variant : EV) (edge_props : ET) : Edge EV (PKS × PKT) ET :=
  { variant := edge_variant,
    variant_pk := (n_source.node_pk, n_target.node_pk),
    id := Dbg.dbg n_source.node_pk ++ "|" ++ Disp.disp edge_variant ++ "|" ++
      Dbg.dbg n_target.node_pk,
    source := n_source.node_id,
    target := n_target.node_id,
    props := edge_props }

/-- `Graph::source_edge_target`: derive both endpoint nodes, synthesize the
edge, then insert source node, edge, target node in that order, stopping at
the first serialization failure; return the three records on success. -/
def Graph.source_edge_target {NVS PKS TS EV ET NVT PKT TT : Type}
    [Ser NVS] [Disp NVS] [Ser PKS] [Dbg PKS] [Ser TS]
    [Ser EV] [Disp EV] [Ser ET]
    [Ser NVT] [Disp NVT] [Ser PKT] [Dbg PKT] [Ser TT]
    (g : Graph) (n_source : ToNodeInst NVS PKS TS) (n_target : ToNodeInst NVT PKT TT)
    (edge_variant : EV) (edge_props : ET) :
    Graph × Except SerErr
      (Node NVS PKS TS × Edge EV (PKS × PKT) ET × Node NVT PKT TT) :=
  let source := n_source.to_node
  let target := n_target.to_node
  let edge := mkSETEdge n_source n_target edge_variant edge_props
  match g.add_node source with
  | (g1, .error e) => (g1, .error e)
  | (g1, .ok _) =>
    match g1.add_edge edge with
    | (g2, .error e) => (g2, .error e)
    | (g2, .ok _) =>
      match g2.add_node target with
      | (g3, .error e) => (g3, .error e)
      | (g3, .ok _) => (g3, .ok (source, edge, target))

/-- A dictionary for the `ToGraph` trait: the required `mut_graph` method,
state-passing on the graph. -/
structure ToGraphInst where
  mut_graph : Graph → Graph × Except SerErr Unit

/-- `ToGraph::to_graph` (provided default): create an empty graph, delegate to
`mut_graph`, return the graph on success and the error on failure. -/
def ToGraphInst.to_graph (t : ToGraphInst) : Except SerErr Graph :=
  match t.mut_graph Graph.new with
  | (g, .ok _) => .ok g
  | (_, .error e) => .error e

/-- The body of the default `ZoomNode::zoom_to_id`, as a function of the result
of the required `zoom_to` method: `Some(format("{}|{:?}", variant, pk))` or `None`. -/
def zoom_to_id_default {EV PK : Type} [Disp EV] [Dbg PK]
    (zoom_to : Option (EV × PK)) : Option String :=
  match zoom_to with
  | some (variant, pk) => some (Disp.disp variant ++ "|" ++ Dbg.dbg pk)
  | none => none

/-! ### Concrete instances used by witnesses and counterexamples -/

/-- `Display` for `String` is the string itself. -/
instance : Disp String where
  disp s := s

/-- `Debug` for `Nat` (modelling a numeric primary key such as `i32`). -/
instance : Dbg Nat where
  dbg n := toString n

/-- `Serialize` for `Nat`. -/
instance : Ser Nat where
  ser n := .ok (.num n)

/-- `Serialize` for `String`. -/
instance : Ser String where
  ser s := .ok (.str s)

/-- A props payload engineered so that its serialization always fails. -/
inductive BadProps where
  | bad
deriving DecidableEq

/-- The failing serializer of `BadProps`. -/
instance : Ser BadProps where
  ser _ := .error { msg := "props serialization failed" }

/-! ### Association-list map lemmas -/

theorem getAssoc_updAssoc_self {α : Type} (k : String) (v : α) :
    ∀ l : List (String × α), getAssoc k (updAssoc k v l) = some v
  | [] => by simp [updAssoc, getAssoc]
  | (k', v') :: rest => by
    by_cases h : k' = k
    · simp [updAssoc, getAssoc, h]
    · simp [updAssoc, getAssoc, h, getAssoc_updAssoc_self k v rest]

theorem getAssoc_updAssoc_ne {α : Type} {c k : String} (hne : c ≠ k) (v : α)
    (l : List (String × α)) : getAssoc c (updAssoc k v l) = getAssoc c l := by
  have hkc : ¬k = c := fun h => hne h.symm
  induction l with
  | nil =>
    simp only [updAssoc, getAssoc]
    rw [if_neg hkc]
  | cons p rest ih =>
    obtain ⟨k', v'⟩ := p
    by_cases h : k' = k
    · subst h
      simp only [updAssoc, if_pos rfl, getAssoc]
      rw [if_neg hkc, if_neg hkc]
    · simp only [updAssoc, if_neg h, getAssoc]
      by_cases h2 : k' = c
      · rw [if_pos h2, if_pos h2]
      · rw [if_neg h2, if_neg h2, ih]

theorem getAssoc_mem {α : Type} {k : String} {v : α} :
    ∀ {l : List (String × α)}, getAssoc k l = some v → (k, v) ∈ l
  | [], h => by simp [getAssoc] at h
  | (k', v') :: rest, h => by
    by_cases hk : k' = k
    · subst hk
      simp [getAssoc] at h
      simp [h]
    · simp only [getAssoc, if_neg hk] at h
      exact List.mem_cons_of_mem _ (getAssoc_mem h)

/-- Number of entries of an association list carrying a given key. -/
def countKey {α : Type} (k : String) (l : List (String × α)) : Nat :=
  l.countP (fun p => decide (p.1 = k))

theorem countKey_nil {α : Type} (k : String) : countKey k ([] : List (String × α)) = 0 := by
  simp [countKey]

theorem countKey_cons {α : Type} (k : String) (p : String × α) (l : List (String × α)) :
    countKey k (p :: l) = (if p.1 = k then 1 else 0) + countKey k l := by
  by_cases h : p.1 = k
  · simp [countKey, List.countP_cons, h, Nat.add_comm]
  · simp [countKey, List.countP_cons, h]

theorem countKey_updAssoc {α : Type} {k : String} (v : α) :
    ∀ l : List (String × α), countKey k l ≤ 1 → countKey k (updAssoc k v l) = 1 := by
  intro l
  induction l with
  | nil =>
    intro _
    simp [updAssoc, countKey_cons, countKey_nil]
  | cons p rest ih =>
    intro h
    obtain ⟨k', v'⟩ := p
    by_cases hk : k' = k
    · subst hk
      rw [countKey_cons, if_pos rfl] at h
      have hrest : countKey k' rest = 0 := by omega
      simp [updAssoc, countKey_cons, hrest]
    · rw [countKey_cons, if_neg hk, Nat.zero_add] at h
      simp only [updAssoc, if_neg hk]
      rw [countKey_cons, if_neg hk, Nat.zero_add]
      exact ih h

/-- Well-formedness of a graph's node buckets: no bucket holds two entries
with the same id (true of every reachable graph, since `HashMap` keys are
unique). -/
def Graph.WF (g : Graph) : Prop :=
  ∀ p ∈ g.nodes, ∀ k, countKey k p.2 ≤ 1

/-! ### Characterizations of the insertion operations -/

theorem add_node_ok_eq {NV PK T : Type} [Ser NV] [Disp NV] [Ser PK] [Ser T]
    (g : Graph) (n : Node NV PK T) (j : JValue) (h : n.to_node_json = .ok j) :
    g.add_node n = ({ g with nodes := updAssoc (Disp.disp n.variant) (updAssoc n.id j ((getAssoc (Disp.disp n.variant) g.nodes).getD [])) g.nodes }, .ok ()) := by
  simp [Graph.add_node, h]

theorem add_node_error_eq {NV PK T : Type} [Ser NV] [Disp NV] [Ser PK] [Ser T]
    (g : Graph) (n : Node NV PK T) (e : SerErr) (h : n.to_node_json = .error e) :
    g.add_node n = (g, .error e) := by
  simp [Graph.add_node, h]

theorem add_edge_ok_eq {EV PK T : Type} [Ser EV] [Disp EV] [Ser PK] [Ser T]
    (g : Graph) (ed : Edge EV PK T) (j : JValue) (h : ed.to_edge_json = .ok j) :
    g.add_edge ed = ({ g with edges := updAssoc (Disp.disp ed.variant) (updAssoc ed.id j ((getAssoc (Disp.disp ed.variant) g.edges).getD [])) g.edges }, .ok ()) := by
  simp [Graph.add_edge, h]

theorem add_edge_error_eq {EV PK T : Type} [Ser EV] [Disp EV] [Ser PK] [Ser T]
    (g : Graph) (ed : Edge EV PK T) (e : SerErr) (h : ed.to_edge_json = .error e) :
    g.add_edge ed = (g, .error e) := by
  simp [Graph.add_edge, h]

theorem add_node_edges_eq {NV PK T : Type} [Ser NV] [Disp NV] [Ser PK] [Ser T]
    (g : Graph) (n : Node NV PK T) : (g.add_node n).1.edges = g.edges := by
  cases h : n.to_node_json with
  | error e => rw [add_node_error_eq g n e h]
  | ok j => rw [add_node_ok_eq g n j h]

theorem add_edge_nodes_eq {EV PK T : Type} [Ser EV] [Disp EV] [Ser PK] [Ser T]
    (g : Graph) (ed : Edge EV PK T) : (g.add_edge ed).1.nodes = g.nodes := by
  cases h : ed.to_edge_json with
  | error e => rw [add_edge_error_eq g ed e h]
  | ok j => rw [add_edge_ok_eq g ed j h]

theorem lookup2_add_node_self {NV PK T : Type} [Ser NV] [Disp NV] [Ser PK] [Ser T]
    (g : Graph) (n : Node NV PK T) (j : JValue) (h : n.to_node_json = .ok j) :
    lookup2 (g.add_node n).1.nodes (Disp.disp n.variant) n.id = some j := by
  rw [add_node_ok_eq g n j h]
  simp [lookup2, getAssoc_updAssoc_self]

theorem lookup2_add_edge_self {EV PK T : Type} [Ser EV] [Disp EV] [Ser PK] [Ser T]
    (g : Graph) (ed : Edge EV PK T) (j : JValue) (h : ed.to_edge_json = .ok j) :
    lookup2 (g.add_edge ed).1.edges (Disp.disp ed.variant) ed.id = some j := by
  rw [add_edge_ok_eq g ed j h]
  simp [lookup2, getAssoc_updAssoc_self]

theorem getAssoc_add_node_ne {NV PK T : Type} [Ser NV] [Disp NV] [Ser PK] [Ser T]
    (g : Graph) (n : Node NV PK T) {c : String} (hc : c ≠ Disp.disp n.variant) :
    getAssoc c (g.add_node n).1.nodes = getAssoc c g.nodes := by
  cases h : n.to_node_json with
  | error e => rw [add_node_error_eq g n e h]
  | ok j =>
    rw [add_node_ok_eq g n j h]
    exact getAssoc_updAssoc_ne hc _ _

theorem lookup2_add_node_ne_id {NV PK T : Type} [Ser NV] [Disp NV] [Ser PK] [Ser T]
    (g : Graph) (n : Node NV PK T) {c k : String} (hk : k ≠ n.id) :
    lookup2 (g.add_node n).1.nodes c k = lookup2 g.nodes c k := by
  cases h : n.to_node_json with
  | error e => rw [add_node_error_eq g n e h]
  | ok j =>
    rw [add_node_ok_eq g n j h]
    by_cases hc : c = Disp.disp n.variant
    · subst hc
      simp only [lookup2, getAssoc_updAssoc_self, Option.some_bind]
      rw [getAssoc_updAssoc_ne hk]
      cases hb : getAssoc (Disp.disp n.variant) g.nodes with
      | none => simp [hb, getAssoc]
      | some b => simp [hb]
    · simp only [lookup2]
      rw [getAssoc_updAssoc_ne hc]

theorem lookup2_add_node_isSome {NV PK T : Type} [Ser NV] [Disp NV] [Ser PK] [Ser T]
    (g : Graph) (n : Node NV PK T) {c k : String}
    (h : (lookup2 g.nodes c k).isSome) :
    (lookup2 (g.add_node n).1.nodes c k).isSome := by
  by_cases hk : k = n.id
  · by_cases hc : c = Disp.disp n.variant
    · subst hk
      subst hc
      cases hj : n.to_node_json with
      | error e => rw [add_node_error_eq g n e hj]; exact h
      | ok j => rw [lookup2_add_node_self g n j hj]; rfl
    · have heq : lookup2 (g.add_node n).1.nodes c k = lookup2 g.nodes c k := by
        simp only [lookup2]
        rw [getAssoc_add_node_ne g n hc]
      rw [heq]
      exact h
  · rw [lookup2_add_node_ne_id g n hk]
    exact h

/-! ### Concrete records used by witnesses and counterexamples -/

/-- A `ToNode` implementer supplying only the four required methods, keeping
every provided default (in particular the default `node_id`). -/
def defaultToNode {NV PK T : Type} [Disp NV] [Dbg PK]
    (v : NV) (pk : PK) (nm : String) (p : T) : ToNodeInst NV PK T :=
  { node_variant := v, node_pk := pk, node_name := nm, node_props := p }

/-- A concrete node used by witnesses. -/
def wNode : Node String Nat Nat :=
  { variant := "Person", variant_pk := 7, id := "Person|7", name := "Alice", props := 42 }

/-- The serialization of `wNode`. -/
def wNodeJson : JValue :=
  JValue.obj [("variant", JValue.str "Person"), ("variant_pk", JValue.num 7),
    ("id", JValue.str "Person|7"), ("name", JValue.str "Alice"), ("props", JValue.num 42)]

/-- A node whose props payload cannot serialize. -/
def wBadNode : Node String Nat BadProps :=
  { variant := "Person", variant_pk := 1, id := "Person|1", name := "Bad", props := BadProps.bad }

/-- An edge whose props payload cannot serialize. -/
def wBadEdge : Edge String Nat BadProps :=
  { variant := "Knows", variant_pk := 1, id := "e1", source := "s", target := "t",
    props := BadProps.bad }

/-- A concrete adapter used by witnesses. -/
def wAdapter : ToNodeInst String Nat Nat := defaultToNode "Person" 5 "Eve" 1

/-- Claim C2: for every domain entity implementing the node adapter contract
with the default `node_id`, the assembled node's `id` is the Display form of
the variant, then a bar, then the Debug form of the primary key, and its
`variant`, `variant_pk`, `name` and `props` fields are exactly the adapter's
`node_variant`, `node_pk`, `node_name` and `node_props`. -/
theorem to_node_default_id {NV PK T : Type} [Disp NV] [Dbg PK]
    (v : NV) (pk : PK) (nm : String) (p : T) :
    (defaultToNode v pk nm p).to_node.id = Disp.disp v ++ "|" ++ Dbg.dbg pk ∧
    (defaultToNode v pk nm p).to_node.variant = v ∧
    (defaultToNode v pk nm p).to_node.variant_pk = pk ∧
    (defaultToNode v pk nm p).to_node.name = nm ∧
    (defaultToNode v pk nm p).to_node.props = p :=
  ⟨rfl, rfl, rfl, rfl, rfl⟩

/-- Claim C3: when a node serializes successfully, `add_node` returns `Ok(())`
and the lookup `nodes[variant_string][id]` afterwards yields exactly the
serialized value of the node. -/
theorem add_node_ok_lookup {NV PK T : Type} [Ser NV] [Disp NV] [Ser PK] [Ser T]
    (g : Graph) (n : Node NV PK T) (j : JValue) (h : n.to_node_json = .ok j) :
    (g.add_node n).2 = .ok () ∧
    lookup2 (g.add_node n).1.nodes (Disp.disp n.variant) n.id = some j := by
  constructor
  · rw [add_node_ok_eq g n j h]
  · exact lookup2_add_node_self g n j h

/-- Witness for C3 at a concrete node inserted into the empty graph. -/
theorem add_node_ok_lookup_witness :
    (Graph.new.add_node wNode).2 = .ok () ∧
    lookup2 (Graph.new.add_node wNode).1.nodes "Person" "Person|7" = some wNodeJson :=
  add_node_ok_lookup Graph.new wNode wNodeJson rfl

/-- Claim C7: a node or edge whose serialization fails is not inserted at all:
`add_node`/`add_edge` return the serialization error and the graph is exactly
the one before the call (no entry, no new empty bucket). -/
theorem add_failure_no_mutation {NV PK T EV PK2 T2 : Type}
    [Ser NV] [Disp NV] [Ser PK] [Ser T] [Ser EV] [Disp EV] [Ser PK2] [Ser T2]
    (g : Graph) (n : Node NV PK T) (ed : Edge EV PK2 T2) (e1 e2 : SerErr)
    (hn : n.to_node_json = .error e1) (he : ed.to_edge_json = .error e2) :
    g.add_node n = (g, .error e1) ∧ g.add_edge ed = (g, .error e2) :=
  ⟨add_node_error_eq g n e1 hn, add_edge_error_eq g ed e2 he⟩

/-- Witness for C7 with props payloads engineered to fail serialization. -/
theorem add_failure_no_mutation_witness :
    Graph.new.add_node wBadNode = (Graph.new, .error { msg := "props serialization failed" }) ∧
    Graph.new.add_edge wBadEdge = (Graph.new, .error { msg := "props serialization failed" }) :=
  add_failure_no_mutation Graph.new wBadNode wBadEdge _ _ rfl rfl

/-- Claim C10: `add_node` changes at most the single slot
`nodes[variant_string][id]`: the edges mapping is untouched, every other
variant bucket is untouched, every other id in the same bucket is untouched,
and `add_node_from` has exactly the graph effect of `add_node` on the derived
node. -/
theorem add_node_frame {NV PK T : Type} [Ser NV] [Disp NV] [Ser PK] [Dbg PK] [Ser T]
    (g : Graph) (n : Node NV PK T) :
    (g.add_node n).1.edges = g.edges ∧
    (∀ c, c ≠ Disp.disp n.variant →
      getAssoc c (g.add_node n).1.nodes = getAssoc c g.nodes) ∧
    (∀ c k, k ≠ n.id →
      lookup2 (g.add_node n).1.nodes c k = lookup2 g.nodes c k) ∧
    (∀ m : ToNodeInst NV PK T, (g.add_node_from m).1 = (g.add_node m.to_node).1) := by
  refine ⟨add_node_edges_eq g n, fun c hc => getAssoc_add_node_ne g n hc,
    fun c k hk => lookup2_add_node_ne_id g n hk, fun m => ?_⟩
  simp only [Graph.add_node_from]
  cases hm : g.add_node m.to_node with
  | mk g' r => cases r <;> rfl

/-- Witness for C10: frame facts at concrete keys after a concrete insertion. -/
theorem add_node_frame_witness :
    (Graph.new.add_node wNode).1.edges = Graph.new.edges ∧
    getAssoc "Org" (Graph.new.add_node wNode).1.nodes = getAssoc "Org" Graph.new.nodes ∧
    lookup2 (Graph.new.add_node wNode).1.nodes "Person" "Person|9" =
      lookup2 Graph.new.nodes "Person" "Person|9" ∧
    (Graph.new.add_node_from wAdapter).1 = (Graph.new.add_node wAdapter.to_node).1 := by
  have h := add_node_frame Graph.new wNode
  exact ⟨h.1, h.2.1 "Org" (by decide), h.2.2.1 "Person" "Person|9" (by decide),
    h.2.2.2 wAdapter⟩

/-- Claim C8: `Graph::new` is the empty aggregate, and the default `to_graph`
is: create the empty graph, run `mut_graph` on it, return the mutated graph on
success and propagate the error on failure. -/
theorem graph_new_empty_to_graph (t : ToGraphInst) :
    Graph.new.nodes = [] ∧ Graph.new.edges = [] ∧
    (∀ g, t.mut_graph Graph.new = (g, .ok ()) → t.to_graph = .ok g) ∧
    (∀ g e, t.mut_graph Graph.new = (g, .error e) → t.to_graph = .error e) := by
  refine ⟨rfl, rfl, fun g hg => ?_, fun g e hg => ?_⟩
  · simp [ToGraphInst.to_graph, hg]
  · simp [ToGraphInst.to_graph, hg]

/-- A concrete graph builder whose `mut_graph` adds nothing and succeeds. -/
def wBuilder : ToGraphInst := { mut_graph := fun g => (g, .ok ()) }

/-- Witness for C8 with a concrete builder. -/
theorem graph_new_empty_to_graph_witness :
    Graph.new.nodes = [] ∧ Graph.new.edges = [] ∧ wBuilder.to_graph = .ok Graph.new := by
  have h := graph_new_empty_to_graph wBuilder
  exact ⟨h.1, h.2.1, h.2.2.1 Graph.new rfl⟩

/-- Claim C9: the default `zoom_to_id` is `None` exactly when `zoom_to` is
`None`, and on `Some((variant, pk))` it is the string produced by the default
node id convention for the same variant and primary key. -/
theorem zoom_to_id_default_matches {EV PK : Type} [Disp EV] [Dbg PK]
    (z : Option (EV × PK)) :
    (zoom_to_id_default z = none ↔ z = none) ∧
    (∀ v pk, z = some (v, pk) → zoom_to_id_default z = some (node_id_default v pk)) := by
  constructor
  · cases z with
    | none => simp [zoom_to_id_default]
    | some q =>
      obtain ⟨v, pk⟩ := q
      simp [zoom_to_id_default]
  · rintro v pk rfl
    rfl

/-- Witness for C9 at a concrete zoom target. -/
theorem zoom_to_id_default_matches_witness :
    zoom_to_id_default (some ("Person", (3 : Nat))) = some (node_id_default "Person" (3 : Nat)) :=
  (zoom_to_id_default_matches (some ("Person", (3 : Nat)))).2 "Person" 3 rfl

/-- Claim C4: inserting two nodes with the identical variant string and
identical id (both successfully) leaves exactly one entry at that
(variant, id) slot, holding the serialization of the second node. -/
theorem add_node_last_write_wins {NV1 PK1 T1 NV2 PK2 T2 : Type}
    [Ser NV1] [Disp NV1] [Ser PK1] [Ser T1] [Ser NV2] [Disp NV2] [Ser PK2] [Ser T2]
    (g : Graph) (hWF : Graph.WF g)
    (n1 : Node NV1 PK1 T1) (n2 : Node NV2 PK2 T2)
    (hv : Disp.disp n1.variant = Disp.disp n2.variant) (hid : n1.id = n2.id)
    (j1 j2 : JValue) (h1 : n1.to_node_json = .ok j1) (h2 : n2.to_node_json = .ok j2) :
    ∃ b, getAssoc (Disp.disp n2.variant) ((g.add_node n1).1.add_node n2).1.nodes = some b ∧
      getAssoc n2.id b = some j2 ∧ countKey n2.id b = 1 := by
  have hb0 : countKey n2.id ((getAssoc (Disp.disp n2.variant) g.nodes).getD []) ≤ 1 := by
    cases hb : getAssoc (Disp.disp n2.variant) g.nodes with
    | none => simp [countKey_nil]
    | some b => exact hWF _ (getAssoc_mem hb) n2.id
  rw [add_node_ok_eq g n1 j1 h1]
  simp only [hv, hid]
  rw [add_node_ok_eq _ n2 j2 h2]
  simp only [getAssoc_updAssoc_self, Option.getD_some]
  exact ⟨_, rfl, getAssoc_updAssoc_self _ _ _,
    countKey_updAssoc _ _ (le_of_eq (countKey_updAssoc _ _ hb0))⟩

/-- A second node with the same variant and id as `wNode` but different content. -/
def wNode2 : Node String Nat Nat :=
  { variant := "Person", variant_pk := 8, id := "Person|7", name := "Bob", props := 43 }

/-- The serialization of `wNode2`. -/
def wNode2Json : JValue :=
  JValue.obj [("variant", JValue.str "Person"), ("variant_pk", JValue.num 8),
    ("id", JValue.str "Person|7"), ("name", JValue.str "Bob"), ("props", JValue.num 43)]

/-- Witness for C4: duplicate insertion at the same slot in the empty graph. -/
theorem add_node_last_write_wins_witness :
    ∃ b, getAssoc "Person" ((Graph.new.add_node wNode).1.add_node wNode2).1.nodes = some b ∧
      getAssoc "Person|7" b = some wNode2Json ∧ countKey "Person|7" b = 1 :=
  add_node_last_write_wins Graph.new (fun p hp => by simp [Graph.new] at hp)
    wNode wNode2 rfl rfl wNodeJson wNode2Json rfl rfl

/-- Total number of node entries of a graph carrying a given id, summed over
all variant buckets. -/
def nodeIdCount (g : Graph) (i : String) : Nat :=
  (g.nodes.map (fun p => countKey i p.2)).sum

/-- A node with variant "Person" and id "shared". -/
def cexA : Node String Nat Nat :=
  { variant := "Person", variant_pk := 1, id := "shared", name := "a", props := 1 }

/-- A node with variant "Org" and the same id "shared". -/
def cexB : Node String Nat Nat :=
  { variant := "Org", variant_pk := 2, id := "shared", name := "b", props := 2 }

/-- The serialization of `cexA`. -/
def cexAJson : JValue :=
  JValue.obj [("variant", JValue.str "Person"), ("variant_pk", JValue.num 1),
    ("id", JValue.str "shared"), ("name", JValue.str "a"), ("props", JValue.num 1)]

/-- The serialization of `cexB`. -/
def cexBJson : JValue :=
  JValue.obj [("variant", JValue.str "Org"), ("variant_pk", JValue.num 2),
    ("id", JValue.str "shared"), ("name", JValue.str "b"), ("props", JValue.num 2)]

/-- Counterexample to C5: inserting two nodes with the same id "shared" but
different variants ("Person" then "Org") into the empty graph leaves TWO
entries with that id in the graph — the second insertion does not overwrite
the first, whose serialized value is still present in its own bucket. -/
theorem add_node_same_id_cross_variant_cex :
    nodeIdCount ((Graph.new.add_node cexA).1.add_node cexB).1 "shared" = 2 ∧
    lookup2 ((Graph.new.add_node cexA).1.add_node cexB).1.nodes "Person" "shared" =
      some cexAJson ∧
    lookup2 ((Graph.new.add_node cexA).1.add_node cexB).1.nodes "Org" "shared" =
      some cexBJson :=
  ⟨rfl, rfl, rfl⟩

/-- Claim C5 (amended): two nodes with the same `id` are treated as the same
node only when their variant strings also coincide — then the second insertion
overwrites the first in that slot; with different variant strings each bucket
keeps its own entry and the first is not overwritten. -/
theorem add_node_same_id_variants {NV1 PK1 T1 NV2 PK2 T2 : Type}
    [Ser NV1] [Disp NV1] [Ser PK1] [Ser T1] [Ser NV2] [Disp NV2] [Ser PK2] [Ser T2]
    (g : Graph) (n1 : Node NV1 PK1 T1) (n2 : Node NV2 PK2 T2) (_hid : n1.id = n2.id)
    (j1 j2 : JValue) (h1 : n1.to_node_json = .ok j1) (h2 : n2.to_node_json = .ok j2) :
    (Disp.disp n1.variant = Disp.disp n2.variant →
      lookup2 ((g.add_node n1).1.add_node n2).1.nodes (Disp.disp n2.variant) n2.id =
        some j2) ∧
    (Disp.disp n1.variant ≠ Disp.disp n2.variant →
      lookup2 ((g.add_node n1).1.add_node n2).1.nodes (Disp.disp n1.variant) n1.id =
        some j1 ∧
      lookup2 ((g.add_node n1).1.add_node n2).1.nodes (Disp.disp n2.variant) n2.id =
        some j2) := by
  refine ⟨fun _ => lookup2_add_node_self _ n2 j2 h2, fun hne => ⟨?_, lookup2_add_node_self _ n2 j2 h2⟩⟩
  have houter : getAssoc (Disp.disp n1.variant) ((g.add_node n1).1.add_node n2).1.nodes =
      getAssoc (Disp.disp n1.variant) (g.add_node n1).1.nodes :=
    getAssoc_add_node_ne _ n2 hne
  simp only [lookup2] at *
  rw [houter]
  exact lookup2_add_node_self g n1 j1 h1

/-- Witness for C5 (amended), at the two concrete cross-variant nodes. -/
theorem add_node_same_id_variants_witness :
    lookup2 ((Graph.new.add_node cexA).1.add_node cexB).1.nodes "Person" "shared" =
      some cexAJson ∧
    lookup2 ((Graph.new.add_node cexA).1.add_node cexB).1.nodes "Org" "shared" =
      some cexBJson :=
  (add_node_same_id_variants Graph.new cexA cexB rfl cexAJson cexBJson (by rfl) (by rfl)).2
    (by decide)

/-- Claim C1: when `source_edge_target` succeeds, it returns the source node,
the synthesized edge and the target node: the edge's `variant_pk` is the pair
of the endpoint primary keys, its `id` is
`"{source_pk:?}|{edge_variant}|{target_pk:?}"`, its `source`/`target` equal
the two nodes' ids, and afterwards the graph contains the edge under
`edges[ev.to_string()][edge.id]` and both endpoint nodes under
`nodes[their variant string][their id]`. -/
theorem source_edge_target_ok_spec {NVS PKS TS EV ET NVT PKT TT : Type}
    [Ser NVS] [Disp NVS] [Ser PKS] [Dbg PKS] [Ser TS]
    [Ser EV] [Disp EV] [Ser ET]
    [Ser NVT] [Disp NVT] [Ser PKT] [Dbg PKT] [Ser TT]
    (g g' : Graph) (nS : ToNodeInst NVS PKS TS) (nT : ToNodeInst NVT PKT TT)
    (ev : EV) (p : ET)
    (s : Node NVS PKS TS) (e : Edge EV (PKS × PKT) ET) (t : Node NVT PKT TT)
    (h : g.source_edge_target nS nT ev p = (g', .ok (s, e, t))) :
    s = nS.to_node ∧ t = nT.to_node ∧
    e.variant_pk = (nS.node_pk, nT.node_pk) ∧
    e.id = Dbg.dbg nS.node_pk ++ "|" ++ Disp.disp ev ++ "|" ++ Dbg.dbg nT.node_pk ∧
    e.source = s.id ∧ e.target = t.id ∧
    (∃ je, e.to_edge_json = .ok je ∧ lookup2 g'.edges (Disp.disp ev) e.id = some je) ∧
    (lookup2 g'.nodes (Disp.disp s.variant) s.id).isSome ∧
    (lookup2 g'.nodes (Disp.disp t.variant) t.id).isSome := by
  simp only [Graph.source_edge_target] at h
  cases hA : g.add_node nS.to_node with
  | mk g1 r1 =>
    rw [hA] at h
    cases r1 with
    | error e1 => simp at h
    | ok u1 =>
      simp only [] at h
      cases hB : g1.add_edge (mkSETEdge nS nT ev p) with
      | mk g2 r2 =>
        rw [hB] at h
        cases r2 with
        | error e2 => simp at h
        | ok u2 =>
          simp only [] at h
          cases hC : g2.add_node nT.to_node with
          | mk g3 r3 =>
            rw [hC] at h
            cases r3 with
            | error e3 => simp at h
            | ok u3 =>
              simp only [Prod.mk.injEq, Except.ok.injEq] at h
              obtain ⟨hg, hs, he, ht⟩ := h
              subst hg
              subst hs
              subst he
              subst ht
              obtain ⟨js, hjs⟩ : ∃ js, (nS.to_node).to_node_json = .ok js := by
                cases hj : (nS.to_node).to_node_json with
                | error e0 =>
                  rw [add_node_error_eq g nS.to_node e0 hj] at hA
                  simp at hA
                | ok js => exact ⟨js, rfl⟩
              obtain ⟨je, hje⟩ : ∃ je, (mkSETEdge nS nT ev p).to_edge_json = .ok je := by
                cases hj : (mkSETEdge nS nT ev p).to_edge_json with
                | error e0 =>
                  rw [add_edge_error_eq g1 _ e0 hj] at hB
                  simp at hB
                | ok je => exact ⟨je, rfl⟩
              obtain ⟨jt, hjt⟩ : ∃ jt, (nT.to_node).to_node_json = .ok jt := by
                cases hj : (nT.to_node).to_node_json with
                | error e0 =>
                  rw [add_node_error_eq g2 nT.to_node e0 hj] at hC
                  simp at hC
                | ok jt => exact ⟨jt, rfl⟩
              have hg1 : g1 = (g.add_node nS.to_node).1 := by rw [hA]
              have hg2 : g2 = (g1.add_edge (mkSETEdge nS nT ev p)).1 := by rw [hB]
              have hg3 : g3 = (g2.add_node nT.to_node).1 := by rw [hC]
              refine ⟨rfl, rfl, rfl, rfl, rfl, rfl, ⟨je, hje, ?_⟩, ?_, ?_⟩
              · have hlook : lookup2 g2.edges (Disp.disp ev) (mkSETEdge nS nT ev p).id =
                    some je := by
                  rw [hg2]
                  exact lookup2_add_edge_self g1 _ je hje
                have hedges : g3.edges = g2.edges := by
                  rw [hg3]
                  exact add_node_edges_eq g2 nT.to_node
                rw [hedges]
                exact hlook
              · have h1 : lookup2 g1.nodes (Disp.disp nS.to_node.variant) nS.to_node.id =
                    some js := by
                  rw [hg1]
                  exact lookup2_add_node_self g nS.to_node js hjs
                have h2 : g2.nodes = g1.nodes := by
                  rw [hg2]
                  exact add_edge_nodes_eq g1 _
                have h3 : (lookup2 g2.nodes (Disp.disp nS.to_node.variant) nS.to_node.id).isSome := by
                  rw [h2, h1]
                  rfl
                rw [hg3]
                exact lookup2_add_node_isSome g2 nT.to_node h3
              · rw [hg3]
                rw [lookup2_add_node_self g2 nT.to_node jt hjt]
                rfl

/-- A second concrete adapter, target of the witness edge. -/
def wAdapterT : ToNodeInst String Nat Nat := defaultToNode "Org" 9 "Acme" 2

/-- The graph produced by the witness call to `source_edge_target`. -/
def wSETGraph : Graph :=
  (Graph.new.source_edge_target wAdapter wAdapterT "Rel" (5 : Nat)).1

/-- Witness for C1: a successful `source_edge_target` call on the empty graph. -/
theorem source_edge_target_ok_spec_witness :
    wAdapter.to_node = wAdapter.to_node ∧ wAdapterT.to_node = wAdapterT.to_node ∧
    (mkSETEdge wAdapter wAdapterT "Rel" (5 : Nat)).variant_pk =
      (wAdapter.node_pk, wAdapterT.node_pk) ∧
    (mkSETEdge wAdapter wAdapterT "Rel" (5 : Nat)).id =
      Dbg.dbg wAdapter.node_pk ++ "|" ++ Disp.disp "Rel" ++ "|" ++ Dbg.dbg wAdapterT.node_pk ∧
    (mkSETEdge wAdapter wAdapterT "Rel" (5 : Nat)).source = wAdapter.to_node.id ∧
    (mkSETEdge wAdapter wAdapterT "Rel" (5 : Nat)).target = wAdapterT.to_node.id ∧
    (∃ je, (mkSETEdge wAdapter wAdapterT "Rel" (5 : Nat)).to_edge_json = .ok je ∧
      lookup2 wSETGraph.edges (Disp.disp "Rel")
        (mkSETEdge wAdapter wAdapterT "Rel" (5 : Nat)).id = some je) ∧
    (lookup2 wSETGraph.nodes (Disp.disp wAdapter.to_node.variant)
      wAdapter.to_node.id).isSome ∧
    (lookup2 wSETGraph.nodes (Disp.disp wAdapterT.to_node.variant)
      wAdapterT.to_node.id).isSome :=
  source_edge_target_ok_spec Graph.new wSETGraph wAdapter wAdapterT "Rel" (5 : Nat)
    wAdapter.to_node (mkSETEdge wAdapter wAdapterT "Rel" (5 : Nat)) wAdapterT.to_node
    (by rfl)

/-- Claim C6: when one of the three insertions of `source_edge_target` fails,
the call returns that error and everything inserted before the failing step
remains, with no rollback: a source-node failure leaves the graph untouched;
an edge failure leaves exactly the source node inserted (the edges mapping is
still that of the input graph); a target-node failure leaves the source node
and the edge inserted. -/
theorem source_edge_target_failure {NVS PKS TS EV ET NVT PKT TT : Type}
    [Ser NVS] [Disp NVS] [Ser PKS] [Dbg PKS] [Ser TS]
    [Ser EV] [Disp EV] [Ser ET]
    [Ser NVT] [Disp NVT] [Ser PKT] [Dbg PKT] [Ser TT]
    (g : Graph) (nS : ToNodeInst NVS PKS TS) (nT : ToNodeInst NVT PKT TT)
    (ev : EV) (p : ET) :
    (∀ e, (nS.to_node).to_node_json = .error e →
      g.source_edge_target nS nT ev p = (g, .error e)) ∧
    (∀ js e, (nS.to_node).to_node_json = .ok js →
      (mkSETEdge nS nT ev p).to_edge_json = .error e →
      g.source_edge_target nS nT ev p = ((g.add_node nS.to_node).1, .error e) ∧
      lookup2 (g.source_edge_target nS nT ev p).1.nodes
        (Disp.disp nS.to_node.variant) nS.to_node.id = some js ∧
      (g.source_edge_target nS nT ev p).1.edges = g.edges) ∧
    (∀ js je e, (nS.to_node).to_node_json = .ok js →
      (mkSETEdge nS nT ev p).to_edge_json = .ok je →
      (nT.to_node).to_node_json = .error e →
      g.source_edge_target nS nT ev p =
        (((g.add_node nS.to_node).1.add_edge (mkSETEdge nS nT ev p)).1, .error e)) := by
  refine ⟨fun e he => ?_, fun js e hjs hedge => ?_, fun js je e hjs hedge htgt => ?_⟩
  · simp [Graph.source_edge_target, Graph.add_node, he]
  · have hres : g.source_edge_target nS nT ev p = ((g.add_node nS.to_node).1, .error e) := by
      simp [Graph.source_edge_target, Graph.add_node, Graph.add_edge, hjs, hedge]
    refine ⟨hres, ?_, ?_⟩
    · rw [hres]
      exact lookup2_add_node_self g nS.to_node js hjs
    · rw [hres]
      exact add_node_edges_eq g nS.to_node
  · simp [Graph.source_edge_target, Graph.add_node, Graph.add_edge, hjs, hedge, htgt]

/-- The serialization of `wAdapter.to_node`. -/
def wAdapterJson : JValue :=
  JValue.obj [("variant", JValue.str "Person"), ("variant_pk", JValue.num 5),
    ("id", JValue.str "Person|5"), ("name", JValue.str "Eve"), ("props", JValue.num 1)]

/-- Witness for C6: the edge's props payload fails to serialize, the error is
returned, the already-inserted source node remains, and no edge was added. -/
theorem source_edge_target_failure_witness :
    Graph.new.source_edge_target wAdapter wAdapterT "Rel" BadProps.bad =
      ((Graph.new.add_node wAdapter.to_node).1,
        .error { msg := "props serialization failed" }) ∧
    lookup2 (Graph.new.source_edge_target wAdapter wAdapterT "Rel" BadProps.bad).1.nodes
      (Disp.disp wAdapter.to_node.variant) wAdapter.to_node.id = some wAdapterJson ∧
    (Graph.new.source_edge_target wAdapter wAdapterT "Rel" BadProps.bad).1.edges =
      Graph.new.edges :=
  (source_edge_target_failure Graph.new wAdapter wAdapterT "Rel" BadProps.bad).2.1
    wAdapterJson { msg := "props serialization failed" } (by rfl) (by rfl)
